import Mathlib

/-!
Shallow embedding of cbits/foundation_time.c: the macOS compatibility shim
that supplies clock_getres / clock_gettime equivalents on top of the Mach
clock services.  Machine integers are modelled as Nat (the unsigned
clockid and the 32-bit timebase fields) and Int (the timespec fields);
the only arithmetic in the shim is one unsigned truncating division,
modelled by Nat division together with an explicit zero-divisor flag.
The process-wide static variable timebase is threaded explicitly as
state; the ambient platform services (mach_timebase_info, clock_get_time)
are an explicit environment record.
-/

/-- Enumerator CLOCK_REALTIME of the clockid_t enum in the source, value 0. -/
def CLOCK_REALTIME : Nat := 0

/-- Enumerator CLOCK_MONOTONIC of the clockid_t enum in the source, value 1. -/
def CLOCK_MONOTONIC : Nat := 1

/-- Enumerator CLOCK_PROCESS_CPUTIME_ID of the clockid_t enum, value 2. -/
def CLOCK_PROCESS_CPUTIME_ID : Nat := 2

/-- Enumerator CLOCK_THREAD_CPUTIME_ID of the clockid_t enum, value 3. -/
def CLOCK_THREAD_CPUTIME_ID : Nat := 3

/-- Record mach_timebase_info_data_t: a numerator/denominator pair of
unsigned 32-bit integers converting native ticks to nanoseconds. -/
structure MachTimebaseInfo where
  numer : Nat
  denom : Nat
deriving DecidableEq, Repr

/-- Record struct timespec, the caller-supplied output buffer. -/
structure Timespec where
  tv_sec : Int
  tv_nsec : Int
deriving DecidableEq, Repr

/-- Record mach_timespec_t, as produced by clock_get_time. -/
structure MachTimespec where
  tv_sec : Int
  tv_nsec : Int
deriving DecidableEq, Repr

/-- The two Mach clock services the shim requests from
host_get_clock_service. -/
inductive ClockServ where
  | SYSTEM_CLOCK
  | CALENDAR_CLOCK
deriving DecidableEq, Repr

/-- The ambient platform services: the boot-constant ratio reported by
mach_timebase_info, and the reading clock_get_time delivers for each
clock service during the call under consideration. -/
structure MachEnv where
  timebase_info : MachTimebaseInfo
  clock_get_time : ClockServ → MachTimespec

/-- Acquisition (host_get_clock_service) and release
(mach_port_deallocate) of a Mach clock-service port, recorded as a trace
event. -/
inductive PortEvent where
  | acquire (s : ClockServ)
  | release (s : ClockServ)
deriving DecidableEq, Repr

/-- The initial value of the static variable timebase: the 0/0 sentinel
from its initializer. -/
def timebase0 : MachTimebaseInfo := { numer := 0, denom := 0 }

/-- Result of one call to foundation_time_clock_getres: the returned
status, the caller's buffer after the call, the global timebase variable
after the call, whether mach_timebase_info was invoked during the call,
and whether the nanosecond division had a zero divisor. -/
structure GetresResult where
  status : Int
  timespec : Timespec
  timebase : MachTimebaseInfo
  queried : Bool
  divByZero : Bool
deriving DecidableEq, Repr

/-- Embedding of foundation_time_clock_getres.  The switch has a case for
CLOCK_MONOTONIC, which invokes mach_timebase_info to populate the global
timebase whenever its denom field is 0, writes tv_sec = 0 and
tv_nsec = numer / denom (unsigned truncating division) into the buffer
and breaks, and a case for CLOCK_REALTIME, which returns -1 at once;
every other clockid falls through the switch without touching the
buffer.  Both the break and the fallthrough reach the final statement of
the function, which is return -1. -/
def foundation_time_clock_getres (env : MachEnv) (timebase : MachTimebaseInfo)
    (clockid : Nat) (timespec : Timespec) : GetresResult :=
  if clockid = CLOCK_MONOTONIC then
    let tb := if timebase.denom = 0 then env.timebase_info else timebase
    { status := -1,
      timespec := { tv_sec := 0, tv_nsec := ((tb.numer / tb.denom : Nat) : Int) },
      timebase := tb,
      queried := timebase.denom == 0,
      divByZero := tb.denom == 0 }
  else if clockid = CLOCK_REALTIME then
    { status := -1, timespec := timespec, timebase := timebase,
      queried := false, divByZero := false }
  else
    { status := -1, timespec := timespec, timebase := timebase,
      queried := false, divByZero := false }

/-- Result of one call to foundation_time_clock_gettime: the returned
status, the caller's buffer after the call, and the trace of clock-port
acquire/release events performed during the call. -/
structure GettimeResult where
  status : Int
  timespec : Timespec
  events : List PortEvent
deriving DecidableEq, Repr

/-- Embedding of foundation_time_clock_gettime.  The CLOCK_MONOTONIC case
acquires the SYSTEM_CLOCK service, queries it, deallocates the port and
copies the (tv_sec, tv_nsec) pair into the buffer; the CLOCK_REALTIME
case does the same with the CALENDAR_CLOCK service.  The default case
consists of the expression statement -1; which has no effect, so control
reaches the final statement return 0 with the buffer untouched. -/
def foundation_time_clock_gettime (env : MachEnv) (clockid : Nat)
    (timespec : Timespec) : GettimeResult :=
  if clockid = CLOCK_MONOTONIC then
    let mts := env.clock_get_time ClockServ.SYSTEM_CLOCK
    { status := 0,
      timespec := { tv_sec := mts.tv_sec, tv_nsec := mts.tv_nsec },
      events := [PortEvent.acquire ClockServ.SYSTEM_CLOCK,
                 PortEvent.release ClockServ.SYSTEM_CLOCK] }
  else if clockid = CLOCK_REALTIME then
    let mts := env.clock_get_time ClockServ.CALENDAR_CLOCK
    { status := 0,
      timespec := { tv_sec := mts.tv_sec, tv_nsec := mts.tv_nsec },
      events := [PortEvent.acquire ClockServ.CALENDAR_CLOCK,
                 PortEvent.release ClockServ.CALENDAR_CLOCK] }
  else
    { status := 0, timespec := timespec, events := [] }

/-- A sequence of n + 1 calls to foundation_time_clock_getres with
CLOCK_MONOTONIC, threading the global timebase from call to call,
starting from the 0/0 sentinel the static variable holds at process
start. -/
def getresIter (env : MachEnv) (ts : Timespec) : Nat → GetresResult
  | 0 => foundation_time_clock_getres env timebase0 CLOCK_MONOTONIC ts
  | n + 1 =>
      foundation_time_clock_getres env (getresIter env ts n).timebase
        CLOCK_MONOTONIC ts

/-- A concrete platform whose timebase ratio is 1/1 and whose clock
services read 100 s, 250 ns. -/
def envUnit : MachEnv :=
  { timebase_info := { numer := 1, denom := 1 },
    clock_get_time := fun _ => { tv_sec := 100, tv_nsec := 250 } }

/-- A degenerate platform whose timebase query reports the 0/0 ratio. -/
def envZero : MachEnv :=
  { timebase_info := { numer := 0, denom := 0 },
    clock_get_time := fun _ => { tv_sec := 100, tv_nsec := 250 } }

/-- C1: the claim asserts that all three supported pairs succeed with
status 0; in the code only the two gettime pairs do.  On the
CLOCK_MONOTONIC path of foundation_time_clock_getres the resolution
timestamp is populated correctly, but the break of that case reaches the
final statement return -1, so the call reports failure instead of the
claimed success status 0. -/
theorem C1_getres_monotonic_reports_failure :
    (foundation_time_clock_getres envUnit timebase0 CLOCK_MONOTONIC
        { tv_sec := 0, tv_nsec := 0 }).status = -1 ∧
    (foundation_time_clock_getres envUnit timebase0 CLOCK_MONOTONIC
        { tv_sec := 0, tv_nsec := 0 }).timespec = { tv_sec := 0, tv_nsec := 1 } ∧
    (foundation_time_clock_gettime envUnit CLOCK_MONOTONIC
        { tv_sec := 0, tv_nsec := 0 }).status = 0 ∧
    (foundation_time_clock_gettime envUnit CLOCK_REALTIME
        { tv_sec := 0, tv_nsec := 0 }).status = 0 := by
  decide

/-- C2: the claim asserts that clock kinds outside Monotonic and Realtime
fail in both functions.  foundation_time_clock_getres does return -1 for
such kinds, but the default case of foundation_time_clock_gettime is the
no-effect expression statement -1; followed by return 0, so gettime
reports success for the unsupported kind CLOCK_PROCESS_CPUTIME_ID. -/
theorem C2_gettime_unmatched_kind_reports_success :
    (foundation_time_clock_gettime envUnit CLOCK_PROCESS_CPUTIME_ID
        { tv_sec := 3, tv_nsec := 4 }).status = 0 ∧
    (foundation_time_clock_getres envUnit timebase0 CLOCK_PROCESS_CPUTIME_ID
        { tv_sec := 3, tv_nsec := 4 }).status = -1 := by
  decide

/-- C3: getResolution with CLOCK_MONOTONIC writes seconds 0 and
nanoseconds equal to the truncating Nat division numer / denom of the
cached timebase ratio (the ratio held in the global after the lazy
query); in particular with a native 1/1 ratio and the pristine sentinel
state it writes (0, 1). -/
theorem C3_getres_monotonic_resolution (env : MachEnv) (tb : MachTimebaseInfo)
    (ts : Timespec) (h : env.timebase_info.denom ≠ 0) :
    ((foundation_time_clock_getres env tb CLOCK_MONOTONIC ts).timespec.tv_sec = 0 ∧
      (foundation_time_clock_getres env tb CLOCK_MONOTONIC ts).timespec.tv_nsec =
        (((foundation_time_clock_getres env tb CLOCK_MONOTONIC ts).timebase.numer /
          (foundation_time_clock_getres env tb CLOCK_MONOTONIC ts).timebase.denom : Nat) :
          Int)) ∧
    (env.timebase_info = { numer := 1, denom := 1 } → tb = timebase0 →
      (foundation_time_clock_getres env tb CLOCK_MONOTONIC ts).timespec =
        { tv_sec := 0, tv_nsec := 1 }) := by
  refine ⟨⟨rfl, rfl⟩, ?_⟩
  intro h1 h2
  subst h2
  simp [foundation_time_clock_getres, timebase0, h1]

/-- Witness for C3 at the concrete platform envUnit in the sentinel
state. -/
theorem C3_witness :
    envUnit.timebase_info.denom ≠ 0 ∧
    (foundation_time_clock_getres envUnit timebase0 CLOCK_MONOTONIC
        { tv_sec := 9, tv_nsec := 9 }).timespec = { tv_sec := 0, tv_nsec := 1 } :=
  ⟨by decide,
    (C3_getres_monotonic_resolution envUnit timebase0 { tv_sec := 9, tv_nsec := 9 }
        (by decide)).2 rfl rfl⟩

/-- C4: getResolution with CLOCK_REALTIME returns -1 on every call,
whatever the platform, timebase state and buffer contents. -/
theorem C4_getres_realtime_fails (env : MachEnv) (tb : MachTimebaseInfo)
    (ts : Timespec) :
    (foundation_time_clock_getres env tb CLOCK_REALTIME ts).status = -1 := by
  rfl

/-- C5: getTime with CLOCK_MONOTONIC acquires the SYSTEM_CLOCK service
and getTime with CLOCK_REALTIME acquires the CALENDAR_CLOCK service, and
each copies the native (tv_sec, tv_nsec) pair it obtains from that
service into the output buffer unmodified. -/
theorem C5_gettime_service_selection (env : MachEnv) (ts : Timespec) :
    ((foundation_time_clock_gettime env CLOCK_MONOTONIC ts).timespec.tv_sec =
        (env.clock_get_time ClockServ.SYSTEM_CLOCK).tv_sec ∧
      (foundation_time_clock_gettime env CLOCK_MONOTONIC ts).timespec.tv_nsec =
        (env.clock_get_time ClockServ.SYSTEM_CLOCK).tv_nsec ∧
      (foundation_time_clock_gettime env CLOCK_MONOTONIC ts).events =
        [PortEvent.acquire ClockServ.SYSTEM_CLOCK,
         PortEvent.release ClockServ.SYSTEM_CLOCK]) ∧
    ((foundation_time_clock_gettime env CLOCK_REALTIME ts).timespec.tv_sec =
        (env.clock_get_time ClockServ.CALENDAR_CLOCK).tv_sec ∧
      (foundation_time_clock_gettime env CLOCK_REALTIME ts).timespec.tv_nsec =
        (env.clock_get_time ClockServ.CALENDAR_CLOCK).tv_nsec ∧
      (foundation_time_clock_gettime env CLOCK_REALTIME ts).events =
        [PortEvent.acquire ClockServ.CALENDAR_CLOCK,
         PortEvent.release ClockServ.CALENDAR_CLOCK]) :=
  ⟨⟨rfl, rfl, rfl⟩, ⟨rfl, rfl, rfl⟩⟩

/-- C6: starting from the 0/0 sentinel, provided the platform reports a
ratio with a non-zero denominator, the first getResolution(Monotonic)
call queries mach_timebase_info, every later call does not, the global
holds the platform ratio from the first call on, and every call in the
sequence writes the identical timestamp. -/
theorem C6_timebase_cached_once (env : MachEnv) (ts : Timespec) (n : Nat)
    (h : env.timebase_info.denom ≠ 0) :
    (getresIter env ts n).timebase = env.timebase_info ∧
    ((getresIter env ts n).queried = true ↔ n = 0) ∧
    (getresIter env ts n).timespec = (getresIter env ts 0).timespec := by
  have key : ∀ m, (getresIter env ts m).timebase = env.timebase_info ∧
      ((getresIter env ts m).queried = true ↔ m = 0) ∧
      (getresIter env ts m).timespec =
        { tv_sec := 0,
          tv_nsec :=
            ((env.timebase_info.numer / env.timebase_info.denom : Nat) : Int) } := by
    intro m
    induction m with
    | zero =>
        refine ⟨?_, ?_, ?_⟩ <;>
          simp [getresIter, foundation_time_clock_getres, timebase0]
    | succ k ih =>
        obtain ⟨htb, _, _⟩ := ih
        refine ⟨?_, ?_, ?_⟩ <;>
          simp [getresIter, foundation_time_clock_getres, htb, h]
  exact ⟨(key n).1, (key n).2.1, by rw [(key n).2.2, (key 0).2.2]⟩

/-- Witness for C6 at the concrete platform envUnit after four calls. -/
theorem C6_witness :
    envUnit.timebase_info.denom ≠ 0 ∧
    ((getresIter envUnit { tv_sec := 0, tv_nsec := 0 } 3).timebase =
        envUnit.timebase_info ∧
      ((getresIter envUnit { tv_sec := 0, tv_nsec := 0 } 3).queried = true ↔ 3 = 0) ∧
      (getresIter envUnit { tv_sec := 0, tv_nsec := 0 } 3).timespec =
        (getresIter envUnit { tv_sec := 0, tv_nsec := 0 } 0).timespec) :=
  ⟨by decide,
    C6_timebase_cached_once envUnit { tv_sec := 0, tv_nsec := 0 } 3 (by decide)⟩

/-- C7: on every path of foundation_time_clock_gettime the trace of port
events is either empty or a single acquire of some clock service followed
immediately by its release, so no acquired handle survives the return. -/
theorem C7_handles_released (env : MachEnv) (clockid : Nat) (ts : Timespec) :
    (foundation_time_clock_gettime env clockid ts).events = [] ∨
    ∃ s, (foundation_time_clock_gettime env clockid ts).events =
      [PortEvent.acquire s, PortEvent.release s] := by
  unfold foundation_time_clock_gettime
  split
  · exact Or.inr ⟨ClockServ.SYSTEM_CLOCK, rfl⟩
  · split
    · exact Or.inr ⟨ClockServ.CALENDAR_CLOCK, rfl⟩
    · exact Or.inl rfl

/-- C8: in the CLOCK_MONOTONIC case of foundation_time_clock_getres the
divisor of the nanosecond division is the denominator of the
post-lazy-query ratio: whenever the platform reports a non-zero
denominator the zero-divisor branch is unreachable from any timebase
state, and when the platform reports the 0/0 ratio a call from the
sentinel state divides by zero. -/
theorem C8_division_guarded (env : MachEnv) (tb : MachTimebaseInfo)
    (ts : Timespec) :
    (env.timebase_info.denom ≠ 0 →
      (foundation_time_clock_getres env tb CLOCK_MONOTONIC ts).divByZero = false) ∧
    (env.timebase_info.denom = 0 → tb.denom = 0 →
      (foundation_time_clock_getres env tb CLOCK_MONOTONIC ts).divByZero = true) := by
  constructor
  · intro h
    by_cases h0 : tb.denom = 0 <;>
      simp [foundation_time_clock_getres, h0, h]
  · intro h h0
    simp [foundation_time_clock_getres, h0, h]

/-- Witness for C8: with the 1/1 platform the division never sees a zero
divisor, and with the degenerate 0/0 platform the first call from the
sentinel state does. -/
theorem C8_witness :
    (foundation_time_clock_getres envUnit timebase0 CLOCK_MONOTONIC
        { tv_sec := 0, tv_nsec := 0 }).divByZero = false ∧
    (foundation_time_clock_getres envZero timebase0 CLOCK_MONOTONIC
        { tv_sec := 0, tv_nsec := 0 }).divByZero = true :=
  ⟨(C8_division_guarded envUnit timebase0 { tv_sec := 0, tv_nsec := 0 }).1
      (by decide),
    (C8_division_guarded envZero timebase0 { tv_sec := 0, tv_nsec := 0 }).2
      (by decide) (by decide)⟩

/-- C9: for every clockid other than CLOCK_MONOTONIC — CLOCK_REALTIME
included — foundation_time_clock_getres returns -1, leaves the caller's
buffer exactly as it was, and leaves the global timebase untouched. -/
theorem C9_getres_error_paths_write_nothing (env : MachEnv)
    (tb : MachTimebaseInfo) (clockid : Nat) (ts : Timespec)
    (h : clockid ≠ CLOCK_MONOTONIC) :
    (foundation_time_clock_getres env tb clockid ts).status = -1 ∧
    (foundation_time_clock_getres env tb clockid ts).timespec = ts ∧
    (foundation_time_clock_getres env tb clockid ts).timebase = tb := by
  unfold foundation_time_clock_getres
  rw [if_neg h]
  split <;> exact ⟨rfl, rfl, rfl⟩

/-- Witness for C9 at clockid CLOCK_REALTIME. -/
theorem C9_witness :
    CLOCK_REALTIME ≠ CLOCK_MONOTONIC ∧
    ((foundation_time_clock_getres envUnit timebase0 CLOCK_REALTIME
        { tv_sec := 5, tv_nsec := 6 }).status = -1 ∧
      (foundation_time_clock_getres envUnit timebase0 CLOCK_REALTIME
          { tv_sec := 5, tv_nsec := 6 }).timespec = { tv_sec := 5, tv_nsec := 6 } ∧
      (foundation_time_clock_getres envUnit timebase0 CLOCK_REALTIME
          { tv_sec := 5, tv_nsec := 6 }).timebase = timebase0) :=
  ⟨by decide,
    C9_getres_error_paths_write_nothing envUnit timebase0 CLOCK_REALTIME
      { tv_sec := 5, tv_nsec := 6 } (by decide)⟩

/-- C10: for every clockid outside CLOCK_MONOTONIC and CLOCK_REALTIME,
foundation_time_clock_gettime leaves the caller's buffer exactly as it
was: the default path writes neither field. -/
theorem C10_gettime_unmatched_writes_nothing (env : MachEnv) (clockid : Nat)
    (ts : Timespec) (h1 : clockid ≠ CLOCK_MONOTONIC)
    (h2 : clockid ≠ CLOCK_REALTIME) :
    (foundation_time_clock_gettime env clockid ts).timespec = ts := by
  simp [foundation_time_clock_gettime, h1, h2]

/-- Witness for C10 at clockid CLOCK_PROCESS_CPUTIME_ID. -/
theorem C10_witness :
    CLOCK_PROCESS_CPUTIME_ID ≠ CLOCK_MONOTONIC ∧
    CLOCK_PROCESS_CPUTIME_ID ≠ CLOCK_REALTIME ∧
    (foundation_time_clock_gettime envUnit CLOCK_PROCESS_CPUTIME_ID
        { tv_sec := 7, tv_nsec := 8 }).timespec = { tv_sec := 7, tv_nsec := 8 } :=
  ⟨by decide, by decide,
    C10_gettime_unmatched_writes_nothing envUnit CLOCK_PROCESS_CPUTIME_ID
      { tv_sec := 7, tv_nsec := 8 } (by decide) (by decide)⟩
